import Mathlib

/-
Verification of the result-normalization and analysis-caching pipeline of
`src/streamlit_app.py` (Google Search Results Parser).

The Python code is shallowly embedded: JSON values become the inductive
`Json`; Python dictionaries with string keys become association lists
(`PyDict`); fallible Python expressions become `Except PyErr` computations,
with `PyErr` distinguishing the exception classes that the source code
catches (`RequestException`, `KeyError`, `IndexError`, `ValueError`) from
those it does not (`TypeError`, `AttributeError`).  The external completion
service (`requests.post` to the chat-completions endpoint) is modelled as an
oracle `svc : String → SvcResult` mapping the user prompt to either a raised
`RequestException` or an HTTP response (status, body text).  Numbers are
modelled as integers (the paths exercised here never produce fractional
numerals); `json.loads` is a real fuel-bounded parser over the integer
fragment of JSON, and `json.dumps` a real printer.
-/

/-- A JSON value, as produced by `json.loads` / consumed by `json.dumps`.
Numeric literals are modelled as integers. -/
inductive Json where
  | null : Json
  | bool : Bool → Json
  | num : Int → Json
  | str : String → Json
  | arr : List Json → Json
  | obj : List (String × Json) → Json
deriving Inhabited

mutual
/-- Decidable equality on `Json` (the deriving handler does not cover this
nested inductive, so it is spelled out). -/
def jdecEq : (a b : Json) → Decidable (a = b)
  | .null, .null => .isTrue rfl
  | .bool a, .bool b =>
    if h : a = b then .isTrue (by rw [h]) else .isFalse (by simp [h])
  | .num a, .num b =>
    if h : a = b then .isTrue (by rw [h]) else .isFalse (by simp [h])
  | .str a, .str b =>
    if h : a = b then .isTrue (by rw [h]) else .isFalse (by simp [h])
  | .arr a, .arr b =>
    match jdecEqList a b with
    | .isTrue h => .isTrue (by rw [h])
    | .isFalse h => .isFalse (by simp [h])
  | .obj a, .obj b =>
    match jdecEqFields a b with
    | .isTrue h => .isTrue (by rw [h])
    | .isFalse h => .isFalse (by simp [h])
  | .null, .bool _ => .isFalse (fun h => Json.noConfusion h)
  | .null, .num _ => .isFalse (fun h => Json.noConfusion h)
  | .null, .str _ => .isFalse (fun h => Json.noConfusion h)
  | .null, .arr _ => .isFalse (fun h => Json.noConfusion h)
  | .null, .obj _ => .isFalse (fun h => Json.noConfusion h)
  | .bool _, .null => .isFalse (fun h => Json.noConfusion h)
  | .bool _, .num _ => .isFalse (fun h => Json.noConfusion h)
  | .bool _, .str _ => .isFalse (fun h => Json.noConfusion h)
  | .bool _, .arr _ => .isFalse (fun h => Json.noConfusion h)
  | .bool _, .obj _ => .isFalse (fun h => Json.noConfusion h)
  | .num _, .null => .isFalse (fun h => Json.noConfusion h)
  | .num _, .bool _ => .isFalse (fun h => Json.noConfusion h)
  | .num _, .str _ => .isFalse (fun h => Json.noConfusion h)
  | .num _, .arr _ => .isFalse (fun h => Json.noConfusion h)
  | .num _, .obj _ => .isFalse (fun h => Json.noConfusion h)
  | .str _, .null => .isFalse (fun h => Json.noConfusion h)
  | .str _, .bool _ => .isFalse (fun h => Json.noConfusion h)
  | .str _, .num _ => .isFalse (fun h => Json.noConfusion h)
  | .str _, .arr _ => .isFalse (fun h => Json.noConfusion h)
  | .str _, .obj _ => .isFalse (fun h => Json.noConfusion h)
  | .arr _, .null => .isFalse (fun h => Json.noConfusion h)
  | .arr _, .bool _ => .isFalse (fun h => Json.noConfusion h)
  | .arr _, .num _ => .isFalse (fun h => Json.noConfusion h)
  | .arr _, .str _ => .isFalse (fun h => Json.noConfusion h)
  | .arr _, .obj _ => .isFalse (fun h => Json.noConfusion h)
  | .obj _, .null => .isFalse (fun h => Json.noConfusion h)
  | .obj _, .bool _ => .isFalse (fun h => Json.noConfusion h)
  | .obj _, .num _ => .isFalse (fun h => Json.noConfusion h)
  | .obj _, .str _ => .isFalse (fun h => Json.noConfusion h)
  | .obj _, .arr _ => .isFalse (fun h => Json.noConfusion h)

/-- Decidable equality on lists of `Json`. -/
def jdecEqList : (a b : List Json) → Decidable (a = b)
  | [], [] => .isTrue rfl
  | [], _ :: _ => .isFalse (fun h => List.noConfusion h)
  | _ :: _, [] => .isFalse (fun h => List.noConfusion h)
  | x :: xs, y :: ys =>
    match jdecEq x y with
    | .isFalse h1 => .isFalse (fun h => h1 (List.head_eq_of_cons_eq h))
    | .isTrue h1 =>
      match jdecEqList xs ys with
      | .isTrue h2 => .isTrue (by rw [h1, h2])
      | .isFalse h2 => .isFalse (fun h => h2 (List.tail_eq_of_cons_eq h))

/-- Decidable equality on `Json` object field lists. -/
def jdecEqFields : (a b : List (String × Json)) → Decidable (a = b)
  | [], [] => .isTrue rfl
  | [], _ :: _ => .isFalse (fun h => List.noConfusion h)
  | _ :: _, [] => .isFalse (fun h => List.noConfusion h)
  | (k1, v1) :: xs, (k2, v2) :: ys =>
    if hk : k1 = k2 then
      match jdecEq v1 v2 with
      | .isFalse h1 =>
        .isFalse (fun h => h1 (congrArg Prod.snd (List.head_eq_of_cons_eq h)))
      | .isTrue h1 =>
        match jdecEqFields xs ys with
        | .isTrue h2 => .isTrue (by rw [hk, h1, h2])
        | .isFalse h2 => .isFalse (fun h => h2 (List.tail_eq_of_cons_eq h))
    else
      .isFalse (fun h => hk (congrArg Prod.fst (List.head_eq_of_cons_eq h)))
end

instance : DecidableEq Json := jdecEq

/-- Decidable equality for `Except`, needed to evaluate the embedded
computations inside `decide`. -/
instance {ε α : Type} [DecidableEq ε] [DecidableEq α] : DecidableEq (Except ε α) :=
  fun a b =>
    match a, b with
    | .ok x, .ok y =>
      if h : x = y then .isTrue (by rw [h]) else .isFalse (by simp [h])
    | .error x, .error y =>
      if h : x = y then .isTrue (by rw [h]) else .isFalse (by simp [h])
    | .ok _, .error _ => .isFalse (fun h => Except.noConfusion h)
    | .error _, .ok _ => .isFalse (fun h => Except.noConfusion h)

/-- A Python dictionary with string keys, in insertion order. -/
abbrev PyDict := List (String × Json)

/-- Python exception classes relevant to `streamlit_app.py`.  `analyze_row`
catches `requestException`, `keyError`, `indexError` and `valueError`
(`json.JSONDecodeError` is a `ValueError`); `typeError` and `attributeError`
propagate out of every function in the file. -/
inductive PyErr where
  | keyError : String → PyErr
  | typeError : String → PyErr
  | indexError : String → PyErr
  | attributeError : String → PyErr
  | valueError : String → PyErr
  | requestException : String → PyErr
deriving Repr, DecidableEq, Inhabited

/-- Lookup in a Python dict (`d[k]` when the key is known present, `k in d`,
`d.get(k)`): first binding of the key, as Python dicts have unique keys. -/
def pyLookup (d : PyDict) (k : String) : Option Json :=
  match d with
  | [] => none
  | (k2, v) :: rest => if k2 = k then some v else pyLookup rest k

/-- Python `d[k]` on a dict: `KeyError` when the key is absent. -/
def dictIndex (d : PyDict) (k : String) : Except PyErr Json :=
  match pyLookup d k with
  | some v => .ok v
  | none => .error (.keyError k)

/-- Python `item.get(k)` (default `None`): only dicts have `.get`;
any other value raises `AttributeError`. -/
def Json.pyGet : Json → String → Except PyErr Json
  | .obj fs, k => .ok ((pyLookup fs k).getD .null)
  | _, _ => .error (.attributeError "get")

/-- Python `item.get(k, default)` on a value expected to be a dict. -/
def Json.pyGetD : Json → String → Json → Except PyErr Json
  | .obj fs, k, d => .ok ((pyLookup fs k).getD d)
  | _, _, _ => .error (.attributeError "get")

/-- Python `x[:n]` followed by iteration: lists slice to their first `n`
elements, strings to their first `n` characters (iterated as 1-character
strings); dicts and scalars raise `TypeError`. -/
def pySliceTake : Json → Nat → Except PyErr (List Json)
  | .arr xs, n => .ok (xs.take n)
  | .str s, n => .ok ((s.toList.take n).map (fun c => Json.str (String.mk [c])))
  | .obj _, _ => .error (.typeError "unhashable type: slice")
  | _, _ => .error (.typeError "object is not subscriptable")

/-- Python iteration `for x in v`: lists yield elements, strings yield
characters, dicts yield their keys; scalars raise `TypeError`. -/
def pyIter : Json → Except PyErr (List Json)
  | .arr xs => .ok xs
  | .str s => .ok (s.toList.map (fun c => Json.str (String.mk [c])))
  | .obj fs => .ok (fs.map (fun p => Json.str p.1))
  | _ => .error (.typeError "object is not iterable")

/-- Python `str.join` item check: every joined item must be a `str`,
otherwise `TypeError`. -/
def asJoinStr : Json → Except PyErr String
  | .str s => .ok s
  | _ => .error (.typeError "sequence item: expected str instance")

/-- Python `sep.join(items)` over already-iterated items. -/
def pyJoinStrs (sep : String) (xs : List Json) : Except PyErr String :=
  (xs.mapM asJoinStr).map (String.intercalate sep)

/-- Python `v[k]` subscription with a string key: dict lookup
(`KeyError` when absent); lists/strings want integer indices; scalars are
not subscriptable. -/
def pyIndexKey (j : Json) (k : String) : Except PyErr Json :=
  match j with
  | .obj fs => dictIndex fs k
  | .arr _ => .error (.typeError "list indices must be integers")
  | .str _ => .error (.typeError "string indices must be integers")
  | _ => .error (.typeError "object is not subscriptable")

/-- Python `v[0]`: first list element (`IndexError` on empty), first
character of a string, `KeyError` on a dict (no key `0` here, as all
modelled keys are strings), `TypeError` on scalars. -/
def pyIndex0 (j : Json) : Except PyErr Json :=
  match j with
  | .arr [] => .error (.indexError "list index out of range")
  | .arr (x :: _) => .ok x
  | .str s =>
    match s.toList with
    | [] => .error (.indexError "string index out of range")
    | c :: _ => .ok (.str (String.mk [c]))
  | .obj _ => .error (.keyError "0")
  | _ => .error (.typeError "object is not subscriptable")

mutual
/-- Python `repr` of a JSON-shaped value (string escaping elided: the
values reaching `repr` in this development contain no quotes). -/
def pyRepr : Json → String
  | .null => "None"
  | .bool true => "True"
  | .bool false => "False"
  | .num n => toString n
  | .str s => "\x27" ++ s ++ "\x27"
  | .arr xs => "[" ++ pyReprList xs ++ "]"
  | .obj fs => "\x7b" ++ pyReprFields fs ++ "\x7d"

def pyReprList : List Json → String
  | [] => ""
  | [x] => pyRepr x
  | x :: xs => pyRepr x ++ ", " ++ pyReprList xs

def pyReprFields : List (String × Json) → String
  | [] => ""
  | [(k, v)] => "\x27" ++ k ++ "\x27: " ++ pyRepr v
  | (k, v) :: fs => "\x27" ++ k ++ "\x27: " ++ pyRepr v ++ ", " ++ pyReprFields fs
end

/-- Python `str(v)`: identity on strings, `repr` otherwise
(`str(None) = "None"`). -/
def pyStr (j : Json) : String :=
  match j with
  | .str s => s
  | _ => pyRepr j

/-- JSON string escaping used by `json.dumps` (the escapes needed by the
values in this development: quote, backslash, newline, tab, CR). -/
def jsonEscapeChar (c : Char) : String :=
  if c = '"' then "\\\""
  else if c = '\\' then "\\\\"
  else if c = '\n' then "\\n"
  else if c = '\t' then "\\t"
  else if c = '\r' then "\\r"
  else String.mk [c]

/-- Escape a whole string for `json.dumps`. -/
def jsonEscape (s : String) : String :=
  String.join (s.toList.map jsonEscapeChar)

mutual
/-- Python `json.dumps(v)` with default separators. -/
def jsonDumps : Json → String
  | .null => "null"
  | .bool true => "true"
  | .bool false => "false"
  | .num n => toString n
  | .str s => "\"" ++ jsonEscape s ++ "\""
  | .arr xs => "[" ++ jsonDumpsList xs ++ "]"
  | .obj fs => "\x7b" ++ jsonDumpsFields fs ++ "\x7d"

def jsonDumpsList : List Json → String
  | [] => ""
  | [x] => jsonDumps x
  | x :: xs => jsonDumps x ++ ", " ++ jsonDumpsList xs

def jsonDumpsFields : List (String × Json) → String
  | [] => ""
  | [(k, v)] => "\"" ++ jsonEscape k ++ "\": " ++ jsonDumps v
  | (k, v) :: fs =>
    "\"" ++ jsonEscape k ++ "\": " ++ jsonDumps v ++ ", " ++ jsonDumpsFields fs
end

/-- Two-space indentation prefix at nesting level `lvl`, as produced by
`json.dumps(v, indent=2)`. -/
def indentPad (lvl : Nat) : String :=
  String.mk (List.replicate (2 * lvl) ' ')

mutual
/-- Python `json.dumps(v, indent=2)` at nesting level `lvl`:
empty containers print on one line, non-empty ones put each element on its
own indented line. -/
def jsonDumps2 : Nat → Json → String
  | _, .null => "null"
  | _, .bool true => "true"
  | _, .bool false => "false"
  | _, .num n => toString n
  | _, .str s => "\"" ++ jsonEscape s ++ "\""
  | _, .arr [] => "[]"
  | lvl, .arr (x :: xs) =>
    "[\n" ++ jsonDumps2List (lvl + 1) (x :: xs) ++ "\n" ++ indentPad lvl ++ "]"
  | _, .obj [] => "\x7b\x7d"
  | lvl, .obj (f :: fs) =>
    "\x7b\n" ++ jsonDumps2Fields (lvl + 1) (f :: fs) ++ "\n" ++ indentPad lvl ++ "\x7d"

def jsonDumps2List : Nat → List Json → String
  | _, [] => ""
  | lvl, [x] => indentPad lvl ++ jsonDumps2 lvl x
  | lvl, x :: xs => indentPad lvl ++ jsonDumps2 lvl x ++ ",\n" ++ jsonDumps2List lvl xs

def jsonDumps2Fields : Nat → List (String × Json) → String
  | _, [] => ""
  | lvl, [(k, v)] => indentPad lvl ++ "\"" ++ jsonEscape k ++ "\": " ++ jsonDumps2 lvl v
  | lvl, (k, v) :: fs =>
    indentPad lvl ++ "\"" ++ jsonEscape k ++ "\": " ++ jsonDumps2 lvl v ++ ",\n"
      ++ jsonDumps2Fields lvl fs
end

/-- Python `s.lower()`, character by character. -/
def pyLower (s : String) : String :=
  String.mk (s.toList.map Char.toLower)

/-- Whitespace test for the JSON lexer. -/
def isJsonWs (c : Char) : Bool :=
  [' ', '\n', '\t', '\r'].contains c

/-- Skip leading JSON whitespace. -/
def skipWs (cs : List Char) : List Char :=
  cs.dropWhile isJsonWs

/-- Digit test for the JSON lexer. -/
def isJsonDigit (c : Char) : Bool :=
  c ≥ '0' && c ≤ '9'

/-- Split off a maximal run of decimal digits. -/
def takeDigits (cs : List Char) : List Char × List Char :=
  cs.span isJsonDigit

/-- Numeric value of one digit character. -/
def digitVal (c : Char) : Nat :=
  Char.toNat c - Char.toNat '0'

/-- Numeric value of a digit run. -/
def digitsToNat (ds : List Char) : Nat :=
  ds.foldl (fun acc c => 10 * acc + digitVal c) 0

/-- Undo a JSON string escape (the escapes this model emits). -/
def jsonUnescape (c : Char) : Option Char :=
  if c = 'n' then some '\n'
  else if c = 't' then some '\t'
  else if c = 'r' then some '\r'
  else if c = '"' || c = '\\' || c = '/' then some c
  else none

/-- Parse the body of a JSON string after the opening quote
(structural on the character list). -/
def parseStrBody (acc : List Char) : List Char → Option (String × List Char)
  | '"' :: rest => some (String.mk acc.reverse, rest)
  | '\\' :: e :: rest =>
    match jsonUnescape e with
    | some ch => parseStrBody (ch :: acc) rest
    | none => none
  | c :: rest => parseStrBody (c :: acc) rest
  | [] => none

/-- Match a literal keyword prefix, returning the remainder. -/
def dropKeyword : List Char → List Char → Option (List Char)
  | [], cs => some cs
  | k :: ks, c :: cs => if c = k then dropKeyword ks cs else none
  | _ :: _, [] => none

mutual
/-- Fuel-bounded recursive-descent parser for the integer fragment of JSON
(`json.loads`).  Fractional and exponent numerals are rejected: no value in
this development produces them. -/
def parseJson : Nat → List Char → Option (Json × List Char)
  | 0, _ => none
  | fuel + 1, cs0 =>
    match skipWs cs0 with
    | [] => none
    | c :: cs =>
      if c = 'n' then (dropKeyword ['u', 'l', 'l'] cs).map (fun r => (Json.null, r))
      else if c = 't' then (dropKeyword ['r', 'u', 'e'] cs).map (fun r => (Json.bool true, r))
      else if c = 'f' then
        (dropKeyword ['a', 'l', 's', 'e'] cs).map (fun r => (Json.bool false, r))
      else if c = '"' then (parseStrBody [] cs).map (fun p => (Json.str p.1, p.2))
      else if c = '-' then
        match takeDigits cs with
        | ([], _) => none
        | (ds, r) => some (Json.num (-(digitsToNat ds : Int)), r)
      else if isJsonDigit c then
        match takeDigits (c :: cs) with
        | ([], _) => none
        | (ds, r) => some (Json.num (digitsToNat ds : Int), r)
      else if c = '[' then
        match skipWs cs with
        | ']' :: r => some (Json.arr [], r)
        | cs2 => (parseArrItems fuel cs2).map (fun p => (Json.arr p.1, p.2))
      else if c = '\x7b' then
        match skipWs cs with
        | '\x7d' :: r => some (Json.obj [], r)
        | cs2 => (parseObjItems fuel cs2).map (fun p => (Json.obj p.1, p.2))
      else none

/-- Parse one or more comma-separated array elements up to `]`. -/
def parseArrItems : Nat → List Char → Option (List Json × List Char)
  | 0, _ => none
  | fuel + 1, cs =>
    match parseJson fuel cs with
    | none => none
    | some (v, r) =>
      match skipWs r with
      | ',' :: r2 => (parseArrItems fuel r2).map (fun p => (v :: p.1, p.2))
      | ']' :: r2 => some ([v], r2)
      | _ => none

/-- Parse one or more comma-separated object members up to the closing
brace. -/
def parseObjItems : Nat → List Char → Option (List (String × Json) × List Char)
  | 0, _ => none
  | fuel + 1, cs =>
    match skipWs cs with
    | '"' :: cs2 =>
      match parseStrBody [] cs2 with
      | none => none
      | some (k, r) =>
        match skipWs r with
        | ':' :: r2 =>
          match parseJson fuel r2 with
          | none => none
          | some (v, r3) =>
            match skipWs r3 with
            | ',' :: r4 => (parseObjItems fuel r4).map (fun p => ((k, v) :: p.1, p.2))
            | '\x7d' :: r4 => some ([(k, v)], r4)
            | _ => none
        | _ => none
    | _ => none
end

/-- Python `json.loads(s)` over the integer fragment of JSON: `none` models
a raised `json.JSONDecodeError` (a `ValueError`).  Trailing non-whitespace
data is an error, as in Python. -/
def jsonLoads (s : String) : Option Json :=
  match parseJson (4 * s.length + 8) s.toList with
  | some (j, rest) => if skipWs rest = [] then some j else none
  | none => none

/-- Extractor for one ads item (`streamlit_app.py` lines 66-79).
Python builds a dict literal whose values come from `item.get(...)`; that
requires `item` to be a dict (otherwise the first `.get` raises
`AttributeError`), after which only the sitelink join can fail:
iterating `item.get("sitelinks", [])` and joining each
`sitelink.get("title", "")` with `", "`. -/
def parseAd (item : Json) : Except PyErr PyDict :=
  match item with
  | .obj fs => do
    let sl := (pyLookup fs "sitelinks").getD (Json.arr [])
    let slItems ← pyIter sl
    let titles ← slItems.mapM (fun s => s.pyGetD "title" (.str ""))
    let joined ← pyJoinStrs ", " titles
    .ok [("Type", .str "Ad"),
         ("Position", (pyLookup fs "position").getD .null),
         ("Title", (pyLookup fs "title").getD .null),
         ("Link", (pyLookup fs "link").getD .null),
         ("Displayed Link", (pyLookup fs "displayed_link").getD .null),
         ("Description", (pyLookup fs "description").getD .null),
         ("Sitelinks", .str joined),
         ("Source", (pyLookup fs "source").getD .null)]
  | _ => .error (.attributeError "get")

/-- Extractor for one organic result (`streamlit_app.py` lines 83-99).
Sitelinks come from `result.get("sitelinks", {}).get("inline", [])`, so a
non-dict `sitelinks` value raises `AttributeError`. -/
def parseOrganic (item : Json) : Except PyErr PyDict :=
  match item with
  | .obj fs => do
    let sl0 := (pyLookup fs "sitelinks").getD (Json.obj [])
    let inl ← sl0.pyGetD "inline" (.arr [])
    let slItems ← pyIter inl
    let titles ← slItems.mapM (fun s => s.pyGetD "title" (.str ""))
    let joined ← pyJoinStrs ", " titles
    .ok [("Type", .str "Organic"),
         ("Position", (pyLookup fs "position").getD .null),
         ("Title", (pyLookup fs "title").getD .null),
         ("Link", (pyLookup fs "link").getD .null),
         ("Displayed Link", (pyLookup fs "displayed_link").getD .null),
         ("Snippet", (pyLookup fs "snippet").getD .null),
         ("Sitelinks", .str joined),
         ("Source", (pyLookup fs "source").getD .null)]
  | _ => .error (.attributeError "get")

/-- Extractor for one shopping result (`streamlit_app.py` lines 103-114):
every value is a plain `item.get`, so only a non-dict item can fail. -/
def parseShopping (item : Json) : Except PyErr PyDict :=
  match item with
  | .obj fs =>
    .ok [("Type", .str "Shopping"),
         ("Position", (pyLookup fs "position").getD .null),
         ("Title", (pyLookup fs "title").getD .null),
         ("Link", (pyLookup fs "link").getD .null),
         ("Price", (pyLookup fs "price").getD .null),
         ("Source", (pyLookup fs "source").getD .null),
         ("Rating", (pyLookup fs "rating").getD .null),
         ("Reviews", (pyLookup fs "reviews").getD .null)]
  | _ => .error (.attributeError "get")

/-- Extractor for one immersive product (`streamlit_app.py` lines 118-126).
Note: the dict literal has no `Position` key at all. -/
def parseImmersive (item : Json) : Except PyErr PyDict :=
  match item with
  | .obj fs =>
    .ok [("Type", .str "Immersive Product"),
         ("Title", (pyLookup fs "title").getD .null),
         ("Link", (pyLookup fs "link").getD .null),
         ("Price", (pyLookup fs "price").getD .null),
         ("Source", (pyLookup fs "source").getD .null)]
  | _ => .error (.attributeError "get")

/-- One category of `parse_results`: `if key in results:` followed by
`for item in results[key][:num_results]` and the per-item extractor;
an absent key leaves the category list at its initial `[]`. -/
def parseCategory (results : PyDict) (key : String)
    (f : Json → Except PyErr PyDict) (n : Nat) : Except PyErr (List PyDict) :=
  match pyLookup results key with
  | none => .ok []
  | some v => do
    let items ← pySliceTake v n
    items.mapM f

/-- `parse_results(results, num_results)` (`streamlit_app.py` lines 56-128):
builds the `parsed_data` dict with exactly the four keys of the initial
literal — `ads`, `organic`, `shopping_results`, `immersive_products` —
filling each from the corresponding top-level key of the response when
present (`ads`, `organic_results`, `shopping_results`,
`immersive_products`). -/
def parse_results (results : PyDict) (num_results : Nat) :
    Except PyErr (List (String × List PyDict)) := do
  let a ← parseCategory results "ads" parseAd num_results
  let o ← parseCategory results "organic_results" parseOrganic num_results
  let s ← parseCategory results "shopping_results" parseShopping num_results
  let i ← parseCategory results "immersive_products" parseImmersive num_results
  .ok [("ads", a), ("organic", o), ("shopping_results", s), ("immersive_products", i)]

/-- Lookup in the `parsed_data` mapping returned by `parse_results`. -/
def categoryRows (m : List (String × List PyDict)) (k : String) :
    Option (List PyDict) :=
  match m with
  | [] => none
  | (k2, v) :: rest => if k2 = k then some v else categoryRows rest k

/-- Outcome of one `requests.post` to the completion endpoint: either a
raised `requests.RequestException` (connection failure or the 60-second
timeout), or an HTTP response with a status code and a body text. -/
inductive SvcResult where
  | exc : String → SvcResult
  | resp : Nat → String → SvcResult
deriving Repr, DecidableEq, Inhabited

/-- The completion service as a deterministic oracle from the user prompt
to the outcome of the network call. -/
abbrev SvcOracle := String → SvcResult

/-- The `next((item for item in ... if str(item.get("position")) ==
str(_row.get("Position"))), {})` generator scan of `analyze_row`
(`streamlit_app.py` lines 134-141): first item whose `position` stringifies
to `target`, defaulting to the empty dict; `item.get` on a non-dict raises
`AttributeError`. -/
def firstMatchPos (target : String) : List Json → Except PyErr Json
  | [] => .ok (Json.obj [])
  | item :: rest => do
    let p ← item.pyGet "position"
    if pyStr p = target then .ok item else firstMatchPos target rest

/-- The `original_data` computation of `analyze_row` (lines 134-141): look
up `original_json.get(f"{result_type}s", [])` — note the key is the row
type lowercased plus a literal `s` — and scan it for a position match. -/
def findOriginalData (row : PyDict) (oj : PyDict) (result_type : String) :
    Except PyErr Json := do
  let lst := (pyLookup oj (result_type ++ "s")).getD (Json.arr [])
  let items ← pyIter lst
  firstMatchPos (pyStr ((pyLookup row "Position").getD .null)) items

/-- The prompt f-string of `analyze_row` (lines 143-165), as a function of
its six interpolated fragments. -/
def promptText (ty ti li pos fullData origData : String) : String :=
  "Analyze this search result data for the query \x27elisa kits\x27 and provide insights for digital marketing:\n\nResult Type: "
    ++ ty ++ "\nTitle: " ++ ti ++ "\nLink: " ++ li ++ "\nPosition: " ++ pos
    ++ "\nFull Data: " ++ fullData ++ "\n\nOriginal Data: " ++ origData
    ++ "\n\nPlease provide a comprehensive analysis including:\n1. SEO strengths and weaknesses (for organic results) or Ad copy effectiveness (for ads)\n2. Content strategy insights\n3. Keyword optimization suggestions (list top 5 keywords)\n4. Competitive positioning\n5. Potential areas for improvement\n6. Unique selling propositions (if applicable)\n7. Call-to-action effectiveness\n8. Target audience insights\n9. Recommendations for outranking this result (for organic) or creating more effective ads (for ads)\n\nBe specific and provide actionable insights a digital marketer can use to compete with or outrank this result.\nFormat your response as a JSON object with the following keys: seo_analysis, content_strategy, keywords, competitive_positioning, improvements, usp, cta_effectiveness, target_audience, recommendations."

/-- The part of `analyze_row` before the `try` block (lines 133-165):
`result_type = _row["Type"].lower()` (a `KeyError` when `Type` is absent,
an `AttributeError` when it is not a string), the `original_data` scan, and
the prompt f-string, whose subscriptions `_row["Type"]`, `_row["Title"]`,
`_row["Link"]`, `_row["Position"]` each raise `KeyError` when absent.
Everything here is outside the `try`, so these exceptions propagate. -/
def analyzePrompt (row : PyDict) (oj : PyDict) : Except PyErr String := do
  let t ← dictIndex row "Type"
  let ts ← match t with
    | .str s => Except.ok s
    | _ => Except.error (PyErr.attributeError "lower")
  let original_data ← findOriginalData row oj (pyLower ts)
  let tyv ← dictIndex row "Type"
  let ti ← dictIndex row "Title"
  let li ← dictIndex row "Link"
  let pos ← dictIndex row "Position"
  .ok (promptText (pyStr tyv) (pyStr ti) (pyStr li) (pyStr pos)
    (jsonDumps2 0 (.obj row)) (jsonDumps2 0 original_data))

/-- `response.json()["choices"][0]["message"]["content"]` (line 184), with
Python subscription semantics at every step. -/
def extractContent (bj : Json) : Except PyErr Json := do
  let choices ← pyIndexKey bj "choices"
  let c0 ← pyIndex0 choices
  let msg ← pyIndexKey c0 "message"
  pyIndexKey msg "content"

/-- The body of the `try` block of `analyze_row` (lines 167-185): post the
prompt, `raise_for_status()` (an `HTTPError`, a `RequestException`, for any
status of 400 or above), parse the body (`response.json()` raises a
`ValueError` on malformed JSON), extract the message content, and
`json.loads` it — a `TypeError` when the content is not a string. -/
def runTry (prompt : String) (svc : SvcOracle) : Except PyErr Json :=
  match svc prompt with
  | .exc m => .error (.requestException m)
  | .resp status body =>
    if 400 ≤ status then .error (.requestException ("HTTP " ++ toString status))
    else
      match jsonLoads body with
      | none => .error (.valueError "Expecting value")
      | some bj =>
        match extractContent bj with
        | .error e => .error e
        | .ok (.str s) =>
          match jsonLoads s with
          | some v => .ok v
          | none => .error (.valueError "Expecting value")
        | .ok _ => .error (.typeError "the JSON object must be str")

/-- The two `except` clauses of `analyze_row` (lines 186-191):
`RequestException` becomes `{"error": "Failed to analyze row: ..."}`;
`KeyError`, `IndexError` and `ValueError` (which covers
`json.JSONDecodeError`) become `{"error": "Error processing the analysis:
..."}`.  Any other exception propagates. -/
def catchPolicy : Except PyErr Json → Except PyErr Json
  | .ok v => .ok v
  | .error (.requestException m) =>
    .ok (.obj [("error", .str ("Failed to analyze row: " ++ m))])
  | .error (.keyError k) =>
    .ok (.obj [("error", .str ("Error processing the analysis: \x27" ++ k ++ "\x27"))])
  | .error (.indexError m) =>
    .ok (.obj [("error", .str ("Error processing the analysis: " ++ m))])
  | .error (.valueError m) =>
    .ok (.obj [("error", .str ("Error processing the analysis: " ++ m))])
  | .error e => .error e

/-- `analyze_row(_row, api_key, original_json)` (lines 131-191), as the
underlying (uncached) computation against the service oracle.  The second
component counts completion-service calls: `0` when an exception before the
`try` block prevents the post, `1` once `requests.post` runs.  `api_key`
only feeds the auth header, so it does not influence the result. -/
def analyze_row (row : PyDict) (api_key : String) (oj : PyDict)
    (svc : SvcOracle) : Except PyErr Json × Nat :=
  match analyzePrompt row oj with
  | .error e => (.error e, 0)
  | .ok prompt =>
    let _ := api_key
    (catchPolicy (runTry prompt svc), 1)

/-- The memo store of `@st.cache_data(ttl=3600)` on `analyze_row`.  Per
Streamlit semantics, a parameter whose name starts with an underscore
(`_row`) is excluded from the cache key, so entries are keyed by
`(api_key, original_json)` only.  Time (the TTL) is not modelled: every
scenario below stays inside one cache lifetime. -/
abbrev AnalyzeCache := List ((String × PyDict) × Json)

/-- Shortcut instance keeping later instance searches shallow. -/
instance : DecidableEq (List (String × List PyDict)) := inferInstance

/-- Shortcut instance keeping later instance searches shallow. -/
instance : DecidableEq (String × PyDict) := inferInstance

/-- Shortcut instance keeping later instance searches shallow. -/
instance : DecidableEq AnalyzeCache := inferInstance

/-- Cache lookup by key. -/
def cacheLookup (c : AnalyzeCache) (k : String × PyDict) : Option Json :=
  match c with
  | [] => none
  | (k2, v) :: rest => if k2 = k then some v else cacheLookup rest k

/-- One call of the decorated `analyze_row`: on a key hit, return the
stored value without touching the function body (0 service calls); on a
miss, run the body, store a returned value, and propagate (without caching)
a raised exception.  Returns (result, updated cache, service calls). -/
def cachedAnalyzeRow (row : PyDict) (api_key : String) (oj : PyDict)
    (svc : SvcOracle) (cache : AnalyzeCache) :
    Except PyErr Json × AnalyzeCache × Nat :=
  match cacheLookup cache (api_key, oj) with
  | some v => (.ok v, cache, 0)
  | none =>
    match analyze_row row api_key oj svc with
    | (.ok v, n) => (.ok v, cache ++ [((api_key, oj), v)], n)
    | (.error e, n) => (.error e, cache, n)

/-- One entry of `st.session_state.analyzed_results` as built by
`process_results` (`streamlit_app.py` lines 209-218): the category name,
row metadata, and the row and its analysis serialized with `json.dumps`. -/
def mkEntry (result_type : String) (row : PyDict) (analysis : Json) : PyDict :=
  [("Type", .str result_type),
   ("Position", (pyLookup row "Position").getD .null),
   ("Title", (pyLookup row "Title").getD .null),
   ("Link", (pyLookup row "Link").getD .null),
   ("Original Data", .str (jsonDumps (.obj row))),
   ("Analysis", .str (jsonDumps analysis))]

/-- The insight field keys read back by `generate_report`
(lines 263-279). -/
def insightKeys : List String :=
  ["seo_analysis", "content_strategy", "keywords", "competitive_positioning",
   "improvements", "usp", "cta_effectiveness", "target_audience",
   "recommendations"]

/-- The Markdown text one loop iteration appends (lines 258-280), as a
function of the entry metadata, the nine insight values (each rendered with
`str(...)` via `analysis.get(key, "N/A")`), and the joined keywords. -/
def renderChunk (ty pos ti li seo cs : Json) (kwJoined : String)
    (cp im usp cta ta recs : Json) : String :=
  "## " ++ pyStr ty ++ " Result - Position " ++ pyStr pos ++ "\n\n"
    ++ "**Title:** " ++ pyStr ti ++ "\n"
    ++ "**Link:** " ++ pyStr li ++ "\n\n"
    ++ "### SEO Analysis\n" ++ pyStr seo ++ "\n\n"
    ++ "### Content Strategy\n" ++ pyStr cs ++ "\n\n"
    ++ "### Keywords\n" ++ kwJoined ++ "\n\n"
    ++ "### Competitive Positioning\n" ++ pyStr cp ++ "\n\n"
    ++ "### Improvements\n" ++ pyStr im ++ "\n\n"
    ++ "### Unique Selling Proposition\n" ++ pyStr usp ++ "\n\n"
    ++ "### Call-to-Action Effectiveness\n" ++ pyStr cta ++ "\n\n"
    ++ "### Target Audience\n" ++ pyStr ta ++ "\n\n"
    ++ "### Recommendations\n" ++ pyStr recs ++ "\n\n"
    ++ "---\n\n"

/-- The body of one loop iteration of `generate_report` (lines 257-280):
subscript the entry for its metadata, `json.loads` its `Analysis` string (a
`TypeError` when it is not a string, a `ValueError` when it does not
parse), then build the nine insight values, each via
`analysis.get(key, "N/A")` — an `AttributeError` when the parsed analysis
is not a dict — with `keywords` additionally joined by `", "`. -/
def entryChunk (result : PyDict) : Except PyErr String := do
  let ty ← dictIndex result "Type"
  let pos ← dictIndex result "Position"
  let ti ← dictIndex result "Title"
  let li ← dictIndex result "Link"
  let aRaw ← dictIndex result "Analysis"
  let aS ← match aRaw with
    | .str s => Except.ok s
    | _ => Except.error (PyErr.typeError "the JSON object must be str")
  let analysis ← match jsonLoads aS with
    | some j => Except.ok j
    | none => Except.error (PyErr.valueError "Expecting value")
  match analysis with
  | .obj afs =>
    let seo := (pyLookup afs "seo_analysis").getD (.str "N/A")
    let cs := (pyLookup afs "content_strategy").getD (.str "N/A")
    let kw := (pyLookup afs "keywords").getD (.arr [.str "N/A"])
    let kwItems ← pyIter kw
    let kwJoined ← pyJoinStrs ", " kwItems
    let cp := (pyLookup afs "competitive_positioning").getD (.str "N/A")
    let im := (pyLookup afs "improvements").getD (.str "N/A")
    let usp := (pyLookup afs "usp").getD (.str "N/A")
    let cta := (pyLookup afs "cta_effectiveness").getD (.str "N/A")
    let ta := (pyLookup afs "target_audience").getD (.str "N/A")
    let recs := (pyLookup afs "recommendations").getD (.str "N/A")
    .ok (renderChunk ty pos ti li seo cs kwJoined cp im usp cta ta recs)
  | _ => .error (.attributeError "get")

/-- The concatenated per-entry chunks of the report, in list order.  An
exception in any iteration aborts the whole report, as in the Python
loop. -/
def reportBody : List PyDict → Except PyErr String
  | [] => .ok ""
  | e :: rest => do
    let c ← entryChunk e
    let r ← reportBody rest
    .ok (c ++ r)

/-- The report header line (line 255). -/
def reportHeader (query : String) : String :=
  "# Search Results Analysis for \x27" ++ query ++ "\x27\n\n"

/-- `generate_report(query, analyzed_results)` (lines 254-282). -/
def generate_report (query : String) (analyzed_results : List PyDict) :
    Except PyErr String := do
  let b ← reportBody analyzed_results
  .ok (reportHeader query ++ b)

/-- The slice of `st.session_state` that the pipeline touches, together
with the persistent memo store of the decorated `analyze_row` (which
Streamlit keeps outside the session, in its global cache). -/
structure Session where
  analyzeCache : AnalyzeCache
  analyzedResults : Option (List PyDict)
  parsedData : Option (List (String × List PyDict))
  rawResults : Option PyDict
deriving DecidableEq, Inhabited

/-- A fresh session: nothing fetched, nothing cached. -/
def session0 : Session :=
  { analyzeCache := [], analyzedResults := none, parsedData := none,
    rawResults := none }

/-- The `search_button` branch of `main` (`streamlit_app.py` lines
323-330): store the freshly parsed data and raw results and delete
`st.session_state.analyzed_results`.  Nothing clears the
`@st.cache_data` store of `analyze_row`. -/
def newFetch (results : PyDict) (num_results : Nat) (s : Session) :
    Except PyErr Session :=
  match parse_results results num_results with
  | .error e => .error e
  | .ok pd =>
    .ok { analyzeCache := s.analyzeCache, analyzedResults := none,
          parsedData := some pd, rawResults := some results }

/-- Appending a fresh entry makes it visible to lookups of its key. -/
theorem cacheLookup_append_self (c : AnalyzeCache) (k : String × PyDict)
    (v : Json) (h : cacheLookup c k = none) :
    cacheLookup (c ++ [(k, v)]) k = some v := by
  induction c with
  | nil => simp [cacheLookup]
  | cons hd tl ih =>
    obtain ⟨k2, v2⟩ := hd
    unfold cacheLookup at h ⊢
    by_cases hk : k2 = k
    · simp [hk] at h
    · simpa [hk] using ih (by simpa [hk] using h)

/-- C1: calling the decorated `analyze_row` twice with the same row (same
ItemKey) and unchanged underlying data issues exactly one
completion-service call: the first call runs the body (one call) and
stores the result, the second returns the identical stored value with zero
service calls. -/
theorem analyze_cache_hit_second_call (row : PyDict) (api_key : String)
    (oj : PyDict) (svc : SvcOracle) (cache : AnalyzeCache) (v : Json)
    (hmiss : cacheLookup cache (api_key, oj) = none)
    (hok : analyze_row row api_key oj svc = (.ok v, 1)) :
    cachedAnalyzeRow row api_key oj svc cache
      = (.ok v, cache ++ [((api_key, oj), v)], 1) ∧
    cachedAnalyzeRow row api_key oj svc (cache ++ [((api_key, oj), v)])
      = (.ok v, cache ++ [((api_key, oj), v)], 0) := by
  constructor
  · simp [cachedAnalyzeRow, hmiss, hok]
  · simp [cachedAnalyzeRow, cacheLookup_append_self _ _ _ hmiss]

/-- Concrete ad row, as produced by `parse_results` on `fetchR1`. -/
def adRowOld : PyDict :=
  [("Type", .str "Ad"), ("Position", .num 1), ("Title", .str "Old Ad"),
   ("Link", .str "http://old"), ("Displayed Link", .null), ("Description", .null),
   ("Sitelinks", .str ""), ("Source", .null)]

/-- Concrete raw response for the first fetch (query `elisa kits`),
containing one ad. -/
def fetchR1 : PyDict :=
  [("search_parameters", .obj [("q", .str "elisa kits")]),
   ("ads", .arr [.obj [("position", .num 1), ("title", .str "Old Ad"),
     ("link", .str "http://old")]])]

/-- Concrete raw response for a second fetch with a different query and no
results. -/
def fetchR2 : PyDict :=
  [("search_parameters", .obj [("q", .str "other query")])]

/-- Completion service state during the first fetch: returns an analysis
reading `old analysis`. -/
def svcOld : SvcOracle := fun _ =>
  .resp 200 (jsonDumps (.obj [("choices", .arr [.obj [("message",
    .obj [("content", .str (jsonDumps (.obj [("seo_analysis",
      .str "old analysis")])))])]])]))

/-- Completion service state later on: returns `new analysis`. -/
def svcNew : SvcOracle := fun _ =>
  .resp 200 (jsonDumps (.obj [("choices", .arr [.obj [("message",
    .obj [("content", .str (jsonDumps (.obj [("seo_analysis",
      .str "new analysis")])))])]])]))

/-- The analysis value produced under `svcOld`. -/
def vOld : Json := .obj [("seo_analysis", .str "old analysis")]

/-- The analysis value produced under `svcNew`. -/
def vNew : Json := .obj [("seo_analysis", .str "new analysis")]

/-- Witness for C1 at a concrete input: one ad row, an empty cache, a
service returning `old analysis`; the two calls perform 1 then 0 service
calls and agree on the value. -/
theorem analyze_cache_hit_second_call_witness :
    cachedAnalyzeRow adRowOld "k" fetchR1 svcOld []
      = (.ok vOld, [(("k", fetchR1), vOld)], 1) ∧
    cachedAnalyzeRow adRowOld "k" fetchR1 svcOld [(("k", fetchR1), vOld)]
      = (.ok vOld, [(("k", fetchR1), vOld)], 0) := by
  have h := analyze_cache_hit_second_call adRowOld "k" fetchR1 svcOld [] vOld
    (by decide) (by decide)
  simpa using h

/-- C9: the memo key of the decorated `analyze_row` excludes `_row`
(Streamlit does not hash leading-underscore parameters): with a fixed
`api_key` and `original_json`, after any first row is analyzed, a call
with any other row inside the cache lifetime returns the first row's
stored result with no completion-service call. -/
theorem analyze_cache_ignores_row (row1 row2 : PyDict) (api_key : String)
    (oj : PyDict) (svc : SvcOracle) (cache : AnalyzeCache) (v : Json) (n : Nat)
    (_hne : row1 ≠ row2)
    (hmiss : cacheLookup cache (api_key, oj) = none)
    (h1 : analyze_row row1 api_key oj svc = (.ok v, n)) :
    cachedAnalyzeRow row1 api_key oj svc cache
      = (.ok v, cache ++ [((api_key, oj), v)], n) ∧
    cachedAnalyzeRow row2 api_key oj svc (cache ++ [((api_key, oj), v)])
      = (.ok v, cache ++ [((api_key, oj), v)], 0) := by
  constructor
  · simp [cachedAnalyzeRow, hmiss, h1]
  · simp [cachedAnalyzeRow, cacheLookup_append_self _ _ _ hmiss]

/-- Concrete shopping row, unrelated to `adRowOld`. -/
def shopRow : PyDict :=
  [("Type", .str "Shopping"), ("Position", .num 2), ("Title", .str "Kit B"),
   ("Link", .str "http://b"), ("Price", .str "$5"), ("Source", .null),
   ("Rating", .null), ("Reviews", .null)]

/-- Witness for C9: analyzing `adRowOld` first, a later call for the
distinct `shopRow` under the same `(api_key, original_json)` returns the
ad row's analysis without a service call. -/
theorem analyze_cache_ignores_row_witness :
    cachedAnalyzeRow adRowOld "k" fetchR1 svcOld []
      = (.ok vOld, [(("k", fetchR1), vOld)], 1) ∧
    cachedAnalyzeRow shopRow "k" fetchR1 svcOld [(("k", fetchR1), vOld)]
      = (.ok vOld, [(("k", fetchR1), vOld)], 0) := by
  have h := analyze_cache_ignores_row adRowOld shopRow "k" fetchR1 svcOld [] vOld 1
    (by decide) (by decide) (by decide)
  simpa using h

/-- C7 (amended): starting a new fetch deletes
`st.session_state.analyzed_results` (so no previously built report entry
survives into the new working set), but leaves the `analyze_row` memo
store untouched, and a later decorated call whose `(api_key,
original_json)` key is already stored returns the stored value with no
service call. -/
theorem newFetch_clears_results_not_cache (results : PyDict) (n : Nat)
    (s s' : Session) (row : PyDict) (api_key : String) (oj : PyDict)
    (svc : SvcOracle) (v : Json)
    (h : newFetch results n s = .ok s') :
    (s'.analyzedResults = none ∧ s'.analyzeCache = s.analyzeCache) ∧
    (cacheLookup s.analyzeCache (api_key, oj) = some v →
      cachedAnalyzeRow row api_key oj svc s'.analyzeCache
        = (.ok v, s'.analyzeCache, 0)) := by
  unfold newFetch at h
  cases hp : parse_results results n with
  | error e => rw [hp] at h; exact absurd h (by simp)
  | ok pd =>
    rw [hp] at h
    injection h with h
    subst h
    refine ⟨⟨rfl, rfl⟩, fun hhit => ?_⟩
    simp [cachedAnalyzeRow, hhit]

/-- The memo store after `adRowOld` was analyzed during the first fetch. -/
def cacheAfterFetch1 : AnalyzeCache := [(("k", fetchR1), vOld)]

/-- Session state just after the first fetch. -/
def sessionFetch1 : Session :=
  { analyzeCache := [], analyzedResults := none,
    parsedData := some [("ads", [adRowOld]), ("organic", []),
      ("shopping_results", []), ("immersive_products", [])],
    rawResults := some fetchR1 }

/-- Session state once the first fetch's analysis has been cached. -/
def sessionAnalyzed1 : Session :=
  { sessionFetch1 with analyzeCache := cacheAfterFetch1 }

/-- Session state after the second fetch (different query). -/
def sessionFetch2 : Session :=
  { analyzeCache := cacheAfterFetch1, analyzedResults := none,
    parsedData := some [("ads", []), ("organic", []),
      ("shopping_results", []), ("immersive_products", [])],
    rawResults := some fetchR2 }

/-- Session state after refetching the first query (the raw-response fetch
cache returns the same `fetchR1` inside its TTL). -/
def sessionFetch3 : Session :=
  { analyzeCache := cacheAfterFetch1, analyzedResults := none,
    parsedData := some [("ads", [adRowOld]), ("organic", []),
      ("shopping_results", []), ("immersive_products", [])],
    rawResults := some fetchR1 }

/-- Witness for the amended C7 at the concrete two-fetch scenario. -/
theorem newFetch_clears_results_not_cache_witness :
    (sessionFetch2.analyzedResults = none ∧
      sessionFetch2.analyzeCache = sessionAnalyzed1.analyzeCache) ∧
    (cacheLookup sessionAnalyzed1.analyzeCache ("k", fetchR1) = some vOld →
      cachedAnalyzeRow adRowOld "k" fetchR1 svcNew sessionFetch2.analyzeCache
        = (.ok vOld, sessionFetch2.analyzeCache, 0)) := by
  exact newFetch_clears_results_not_cache fetchR2 5 sessionAnalyzed1
    sessionFetch2 adRowOld "k" fetchR1 svcNew vOld (by decide)

/-- C7 (counterexample to the claim as stated): an `AnalysisResult`
created during the first fetch (`vOld`, stored while `fetchR1` with query
`elisa kits` was the working set) is returned by an `analyze` call issued
after a fetch for a different query (`fetchR2`) replaced the working
result set — the memo store of the decorated `analyze_row` is never
invalidated.  After refetching the first query, the decorated call
returns `vOld` with zero service calls even though the live service would
now produce `vNew ≠ vOld`. -/
theorem stale_analysis_survives_new_fetch :
    fetchR1 ≠ fetchR2 ∧
    newFetch fetchR1 5 session0 = .ok sessionFetch1 ∧
    cachedAnalyzeRow adRowOld "k" fetchR1 svcOld sessionFetch1.analyzeCache
      = (.ok vOld, cacheAfterFetch1, 1) ∧
    newFetch fetchR2 5 sessionAnalyzed1 = .ok sessionFetch2 ∧
    newFetch fetchR1 5 sessionFetch2 = .ok sessionFetch3 ∧
    cachedAnalyzeRow adRowOld "k" fetchR1 svcNew sessionFetch3.analyzeCache
      = (.ok vOld, cacheAfterFetch1, 0) ∧
    analyze_row adRowOld "k" fetchR1 svcNew = (.ok vNew, 1) ∧
    vOld ≠ vNew := by
  decide

/-- The `parsed_data` value for a response with no recognized keys. -/
def emptyParsed : List (String × List PyDict) :=
  [("ads", []), ("organic", []), ("shopping_results", []),
   ("immersive_products", [])]

/-- C2 (counterexample to the claim as stated): `parse_results` returns a
mapping with only four categories; `related_questions` and
`related_searches` have no entry even when the raw response carries
them. -/
theorem parse_results_lacks_extra_categories :
    parse_results
        [("related_questions", .arr [.obj [("question", .str "Q")]]),
         ("related_searches", .arr [.obj [("query", .str "S")]])] 5
      = .ok emptyParsed ∧
    categoryRows emptyParsed "related_questions" = none ∧
    categoryRows emptyParsed "related_searches" = none := by
  decide

/-- An absent top-level key leaves its category at the initial `[]`. -/
theorem parseCategory_absent (results : PyDict) (k : String)
    (f : Json → Except PyErr PyDict) (n : Nat)
    (h : pyLookup results k = none) :
    parseCategory results k f n = .ok [] := by
  simp [parseCategory, h]

/-- C2 (amended): `parse_results` returns a mapping whose keys are exactly
the four categories of the code (`ads`, `organic`, `shopping_results`,
`immersive_products`); a category whose top-level key is absent from the
input maps to the empty list, and a response carrying none of the four
recognized keys parses without error to the all-empty mapping. -/
theorem parse_results_four_categories (results : PyDict) (n : Nat) :
    (pyLookup results "ads" = none → pyLookup results "organic_results" = none →
     pyLookup results "shopping_results" = none →
     pyLookup results "immersive_products" = none →
     parse_results results n = .ok emptyParsed) ∧
    (∀ m, parse_results results n = .ok m →
      m.map Prod.fst = ["ads", "organic", "shopping_results", "immersive_products"] ∧
      (pyLookup results "ads" = none → categoryRows m "ads" = some []) ∧
      (pyLookup results "organic_results" = none →
        categoryRows m "organic" = some []) ∧
      (pyLookup results "shopping_results" = none →
        categoryRows m "shopping_results" = some []) ∧
      (pyLookup results "immersive_products" = none →
        categoryRows m "immersive_products" = some [])) := by
  constructor
  · intro h1 h2 h3 h4
    unfold parse_results
    rw [parseCategory_absent results "ads" parseAd n h1,
      parseCategory_absent results "organic_results" parseOrganic n h2,
      parseCategory_absent results "shopping_results" parseShopping n h3,
      parseCategory_absent results "immersive_products" parseImmersive n h4]
    rfl
  · intro m h
    unfold parse_results at h
    cases ha : parseCategory results "ads" parseAd n with
    | error e =>
      simp only [ha, bind, Except.bind] at h
      exact Except.noConfusion h
    | ok a =>
      simp only [ha, bind, Except.bind] at h
      cases ho : parseCategory results "organic_results" parseOrganic n with
      | error e =>
        simp only [ho, bind, Except.bind] at h
        exact Except.noConfusion h
      | ok o =>
        simp only [ho, bind, Except.bind] at h
        cases hs : parseCategory results "shopping_results" parseShopping n with
        | error e =>
          simp only [hs, bind, Except.bind] at h
          exact Except.noConfusion h
        | ok s =>
          simp only [hs, bind, Except.bind] at h
          cases hi : parseCategory results "immersive_products" parseImmersive n with
          | error e =>
            simp only [hi, bind, Except.bind] at h
            exact Except.noConfusion h
          | ok i =>
            simp only [hi, bind, Except.bind] at h
            injection h with h
            subst h
            refine ⟨rfl, fun habs => ?_, fun habs => ?_, fun habs => ?_, fun habs => ?_⟩
            · have := parseCategory_absent results "ads" parseAd n habs
              rw [ha] at this
              injection this with this
              subst this
              rfl
            · have := parseCategory_absent results "organic_results" parseOrganic n habs
              rw [ho] at this
              injection this with this
              subst this
              rfl
            · have := parseCategory_absent results "shopping_results" parseShopping n habs
              rw [hs] at this
              injection this with this
              subst this
              rfl
            · have := parseCategory_absent results "immersive_products" parseImmersive n habs
              rw [hi] at this
              injection this with this
              subst this
              rfl

/-- Witness for the amended C2 at the empty response. -/
theorem parse_results_four_categories_witness :
    parse_results [] 5 = .ok emptyParsed ∧
    categoryRows emptyParsed "ads" = some [] := by
  have h := parse_results_four_categories [] 5
  have hok := h.1 rfl rfl rfl rfl
  exact ⟨hok, (h.2 emptyParsed hok).2.1 rfl⟩

/-- Shape of a successfully extracted ads row: fixed keys in dict-literal
order, each plain field carrying `item.get`'s value (`null` when the
source key is absent), and `Sitelinks` carrying some joined string. -/
theorem parseAd_shape (fs : List (String × Json)) (row : PyDict)
    (h : parseAd (.obj fs) = .ok row) :
    ∃ j, row = [("Type", .str "Ad"),
      ("Position", (pyLookup fs "position").getD .null),
      ("Title", (pyLookup fs "title").getD .null),
      ("Link", (pyLookup fs "link").getD .null),
      ("Displayed Link", (pyLookup fs "displayed_link").getD .null),
      ("Description", (pyLookup fs "description").getD .null),
      ("Sitelinks", .str j),
      ("Source", (pyLookup fs "source").getD .null)] := by
  unfold parseAd at h
  cases h1 : pyIter ((pyLookup fs "sitelinks").getD (Json.arr [])) with
  | error e =>
    simp only [h1, bind, Except.bind] at h
    exact Except.noConfusion h
  | ok slItems =>
    simp only [h1, bind, Except.bind] at h
    cases h2 : slItems.mapM (fun s => Json.pyGetD s "title" (Json.str "")) with
    | error e =>
      simp only [h2, bind, Except.bind] at h
      exact Except.noConfusion h
    | ok titles =>
      simp only [h2, bind, Except.bind] at h
      cases h3 : pyJoinStrs ", " titles with
      | error e =>
        simp only [h3, bind, Except.bind] at h
        exact Except.noConfusion h
      | ok joined =>
        simp only [h3, bind, Except.bind] at h
        injection h with h
        exact ⟨joined, h.symm⟩

/-- Shape of a successfully extracted organic row. -/
theorem parseOrganic_shape (fs : List (String × Json)) (row : PyDict)
    (h : parseOrganic (.obj fs) = .ok row) :
    ∃ j, row = [("Type", .str "Organic"),
      ("Position", (pyLookup fs "position").getD .null),
      ("Title", (pyLookup fs "title").getD .null),
      ("Link", (pyLookup fs "link").getD .null),
      ("Displayed Link", (pyLookup fs "displayed_link").getD .null),
      ("Snippet", (pyLookup fs "snippet").getD .null),
      ("Sitelinks", .str j),
      ("Source", (pyLookup fs "source").getD .null)] := by
  unfold parseOrganic at h
  cases h0 : Json.pyGetD ((pyLookup fs "sitelinks").getD (Json.obj [])) "inline"
      (Json.arr []) with
  | error e =>
    simp only [h0, bind, Except.bind] at h
    exact Except.noConfusion h
  | ok inl =>
    simp only [h0, bind, Except.bind] at h
    cases h1 : pyIter inl with
    | error e =>
      simp only [h1, bind, Except.bind] at h
      exact Except.noConfusion h
    | ok slItems =>
      simp only [h1, bind, Except.bind] at h
      cases h2 : slItems.mapM (fun s => Json.pyGetD s "title" (Json.str "")) with
      | error e =>
        simp only [h2, bind, Except.bind] at h
        exact Except.noConfusion h
      | ok titles =>
        simp only [h2, bind, Except.bind] at h
        cases h3 : pyJoinStrs ", " titles with
        | error e =>
          simp only [h3, bind, Except.bind] at h
          exact Except.noConfusion h
        | ok joined =>
          simp only [h3, bind, Except.bind] at h
          injection h with h
          exact ⟨joined, h.symm⟩

/-- Shape of a successfully extracted shopping row. -/
theorem parseShopping_shape (fs : List (String × Json)) (row : PyDict)
    (h : parseShopping (.obj fs) = .ok row) :
    row = [("Type", .str "Shopping"),
      ("Position", (pyLookup fs "position").getD .null),
      ("Title", (pyLookup fs "title").getD .null),
      ("Link", (pyLookup fs "link").getD .null),
      ("Price", (pyLookup fs "price").getD .null),
      ("Source", (pyLookup fs "source").getD .null),
      ("Rating", (pyLookup fs "rating").getD .null),
      ("Reviews", (pyLookup fs "reviews").getD .null)] := by
  unfold parseShopping at h
  injection h with h
  exact h.symm

/-- Shape of a successfully extracted immersive-product row: no `Position`
key. -/
theorem parseImmersive_shape (fs : List (String × Json)) (row : PyDict)
    (h : parseImmersive (.obj fs) = .ok row) :
    row = [("Type", .str "Immersive Product"),
      ("Title", (pyLookup fs "title").getD .null),
      ("Link", (pyLookup fs "link").getD .null),
      ("Price", (pyLookup fs "price").getD .null),
      ("Source", (pyLookup fs "source").getD .null)] := by
  unfold parseImmersive at h
  injection h with h
  exact h.symm

/-- The parsed row for an ads item with no fields at all. -/
def bareAdRow : PyDict :=
  [("Type", .str "Ad"), ("Position", .null), ("Title", .null), ("Link", .null),
   ("Displayed Link", .null), ("Description", .null), ("Sitelinks", .str ""),
   ("Source", .null)]

/-- C4 (counterexample to the claim as stated): for an ads item missing
every source field, the extractor leaves `Title` (and the other plain
fields) as `None`, not as a `not available` sentinel — only the field KEY
set is uniform. -/
theorem extractor_missing_field_is_null :
    parse_results [("ads", .arr [.obj []])] 5
      = .ok [("ads", [bareAdRow]), ("organic", []), ("shopping_results", []),
             ("immersive_products", [])] ∧
    pyLookup bareAdRow "Title" = some .null ∧
    pyLookup bareAdRow "Position" = some .null ∧
    Json.null ≠ Json.str "not available" := by
  decide

/-- Source-key/record-key pairs whose values are plain `item.get` reads in
the ads extractor. -/
def adNullFields : List (String × String) :=
  [("position", "Position"), ("title", "Title"), ("link", "Link"),
   ("displayed_link", "Displayed Link"), ("description", "Description"),
   ("source", "Source")]

/-- Same for the organic extractor. -/
def organicNullFields : List (String × String) :=
  [("position", "Position"), ("title", "Title"), ("link", "Link"),
   ("displayed_link", "Displayed Link"), ("snippet", "Snippet"),
   ("source", "Source")]

/-- Same for the shopping extractor. -/
def shoppingNullFields : List (String × String) :=
  [("position", "Position"), ("title", "Title"), ("link", "Link"),
   ("price", "Price"), ("source", "Source"), ("rating", "Rating"),
   ("reviews", "Reviews")]

/-- Same for the immersive-products extractor. -/
def immersiveNullFields : List (String × String) :=
  [("title", "Title"), ("link", "Link"), ("price", "Price"),
   ("source", "Source")]

/-- C4 (amended): every record of a category has the same fixed key set
(which is what permits tabular rendering), and a field whose source key is
missing is carried as `None` (`Sitelinks` instead defaults to the empty
joined string), not as a `not available` sentinel. -/
theorem extractor_uniform_fields_null_defaults :
    (∀ fs row, parseAd (.obj fs) = .ok row →
      row.map Prod.fst = ["Type", "Position", "Title", "Link", "Displayed Link",
        "Description", "Sitelinks", "Source"] ∧
      ∀ p ∈ adNullFields, pyLookup fs p.1 = none →
        pyLookup row p.2 = some .null) ∧
    (∀ fs row, parseOrganic (.obj fs) = .ok row →
      row.map Prod.fst = ["Type", "Position", "Title", "Link", "Displayed Link",
        "Snippet", "Sitelinks", "Source"] ∧
      ∀ p ∈ organicNullFields, pyLookup fs p.1 = none →
        pyLookup row p.2 = some .null) ∧
    (∀ fs row, parseShopping (.obj fs) = .ok row →
      row.map Prod.fst = ["Type", "Position", "Title", "Link", "Price",
        "Source", "Rating", "Reviews"] ∧
      ∀ p ∈ shoppingNullFields, pyLookup fs p.1 = none →
        pyLookup row p.2 = some .null) ∧
    (∀ fs row, parseImmersive (.obj fs) = .ok row →
      row.map Prod.fst = ["Type", "Title", "Link", "Price", "Source"] ∧
      ∀ p ∈ immersiveNullFields, pyLookup fs p.1 = none →
        pyLookup row p.2 = some .null) := by
  refine ⟨fun fs row h => ?_, fun fs row h => ?_, fun fs row h => ?_,
    fun fs row h => ?_⟩
  · obtain ⟨j, rfl⟩ := parseAd_shape fs row h
    refine ⟨rfl, fun p hp hnone => ?_⟩
    fin_cases hp <;> simp [pyLookup, hnone]
  · obtain ⟨j, rfl⟩ := parseOrganic_shape fs row h
    refine ⟨rfl, fun p hp hnone => ?_⟩
    fin_cases hp <;> simp [pyLookup, hnone]
  · have := parseShopping_shape fs row h
    subst this
    refine ⟨rfl, fun p hp hnone => ?_⟩
    fin_cases hp <;> simp [pyLookup, hnone]
  · have := parseImmersive_shape fs row h
    subst this
    refine ⟨rfl, fun p hp hnone => ?_⟩
    fin_cases hp <;> simp [pyLookup, hnone]

/-- Witness for the amended C4 on a concrete empty ads item. -/
theorem extractor_uniform_fields_null_defaults_witness :
    bareAdRow.map Prod.fst = ["Type", "Position", "Title", "Link",
      "Displayed Link", "Description", "Sitelinks", "Source"] ∧
    pyLookup bareAdRow "Description" = some .null := by
  have h := extractor_uniform_fields_null_defaults.1 [] bareAdRow (by decide)
  exact ⟨h.1, h.2 ("description", "Description") (by decide) rfl⟩

/-- The parsed row for an organic item carrying only a title. -/
def noPosOrganicRow : PyDict :=
  [("Type", .str "Organic"), ("Position", .null), ("Title", .str "A"),
   ("Link", .null), ("Displayed Link", .null), ("Snippet", .null),
   ("Sitelinks", .str ""), ("Source", .null)]

/-- A parsed ad row with position 1, shared by two source items. -/
def dupPosAdRow : PyDict :=
  [("Type", .str "Ad"), ("Position", .num 1), ("Title", .null), ("Link", .null),
   ("Displayed Link", .null), ("Description", .null), ("Sitelinks", .str ""),
   ("Source", .null)]

/-- C5 (counterexample to the claim as stated): an organic item without a
source `position` gets `Position = None`, not the 1-based list position;
and two ads sharing source position 1 both keep `Position = 1`, so
positions are not unique within a category. -/
theorem position_not_assigned_not_unique :
    parse_results [("organic_results", .arr [.obj [("title", .str "A")]])] 5
      = .ok [("ads", []), ("organic", [noPosOrganicRow]),
             ("shopping_results", []), ("immersive_products", [])] ∧
    pyLookup noPosOrganicRow "Position" = some .null ∧
    some Json.null ≠ some (Json.num 1) ∧
    parse_results [("ads", .arr [.obj [("position", .num 1)],
                                 .obj [("position", .num 1)]])] 5
      = .ok [("ads", [dupPosAdRow, dupPosAdRow]), ("organic", []),
             ("shopping_results", []), ("immersive_products", [])] ∧
    pyLookup dupPosAdRow "Position" = some (.num 1) := by
  decide

/-- C5 (amended): `Position` is copied verbatim from the source item's
`position` field when present and is `None` when absent (never assigned
from list order), immersive-product rows carry no `Position` key at all,
and nothing enforces uniqueness within a category. -/
theorem position_preserved_or_null :
    (∀ fs row, parseAd (.obj fs) = .ok row →
      pyLookup row "Position" = some ((pyLookup fs "position").getD .null)) ∧
    (∀ fs row, parseOrganic (.obj fs) = .ok row →
      pyLookup row "Position" = some ((pyLookup fs "position").getD .null)) ∧
    (∀ fs row, parseShopping (.obj fs) = .ok row →
      pyLookup row "Position" = some ((pyLookup fs "position").getD .null)) ∧
    (∀ fs row, parseImmersive (.obj fs) = .ok row →
      pyLookup row "Position" = none) := by
  refine ⟨fun fs row h => ?_, fun fs row h => ?_, fun fs row h => ?_,
    fun fs row h => ?_⟩
  · obtain ⟨j, rfl⟩ := parseAd_shape fs row h
    simp [pyLookup]
  · obtain ⟨j, rfl⟩ := parseOrganic_shape fs row h
    simp [pyLookup]
  · have := parseShopping_shape fs row h
    subst this
    simp [pyLookup]
  · have := parseImmersive_shape fs row h
    subst this
    simp [pyLookup]

/-- Witness for the amended C5 on concrete items: position 7 is preserved,
an absent position is `None`, and an immersive row has no `Position`
key. -/
theorem position_preserved_or_null_witness :
    pyLookup [("Type", Json.str "Shopping"), ("Position", .num 7),
      ("Title", .null), ("Link", .null), ("Price", .null), ("Source", .null),
      ("Rating", .null), ("Reviews", .null)] "Position" = some (.num 7) ∧
    pyLookup noPosOrganicRow "Position" = some .null ∧
    pyLookup [("Type", Json.str "Immersive Product"), ("Title", .null),
      ("Link", .null), ("Price", .null), ("Source", .null)] "Position" = none := by
  refine ⟨?_, ?_, ?_⟩
  · exact position_preserved_or_null.2.2.1 [("position", .num 7)] _ (by decide)
  · exact position_preserved_or_null.2.1 [("title", .str "A")] _ (by decide)
  · exact position_preserved_or_null.2.2.2 [] _ (by decide)

/-- A completion service returning 200 with a chat payload whose message
content is not JSON. -/
def svcBadContent : SvcOracle := fun _ =>
  .resp 200 (jsonDumps (.obj [("choices", .arr [.obj [("message",
    .obj [("content", .str "This is not JSON")])]])]))

/-- An immersive-product row as produced by `parse_results` (no `Position`
key). -/
def immRowC3 : PyDict :=
  [("Type", .str "Immersive Product"), ("Title", .str "Kit"),
   ("Link", .str "http://kit"), ("Price", .null), ("Source", .null)]

/-- C3 (counterexample to the claim as stated): when the service returns
unparsable content, `analyze_row` returns a value whose only key is
`error` — no `raw_text` field carries the service's text; and on an
immersive-product row (which has no `Position` key) `analyze_row` raises
`KeyError` out of the function instead of returning a value. -/
theorem analyze_error_lacks_raw_text_and_can_raise :
    analyze_row adRowOld "k" fetchR1 svcBadContent
      = (.ok (.obj [("error",
          .str "Error processing the analysis: Expecting value")]), 1) ∧
    pyLookup [("error", Json.str "Error processing the analysis: Expecting value")]
      "raw_text" = none ∧
    analyze_row immRowC3 "k" [] svcBadContent
      = (.error (.keyError "Position"), 0) := by
  decide

/-- C3 (amended): for a row and response for which the prompt construction
succeeds (in particular the row has `Type`, `Title`, `Link` and `Position`
keys), every completion-service failure path — raised request exception
(connection failure or timeout), non-2xx status, unparsable response body,
or message content that fails to parse — returns an `AnalysisResult`
value whose only field is `error`; no `raw_text` field is included. -/
theorem analyze_failure_paths_return_error_value (row oj : PyDict)
    (api_key p : String) (hp : analyzePrompt row oj = .ok p) :
    (∀ svc m, svc p = .exc m →
      analyze_row row api_key oj svc
        = (.ok (.obj [("error", .str ("Failed to analyze row: " ++ m))]), 1)) ∧
    (∀ svc st body, svc p = .resp st body → 400 ≤ st →
      analyze_row row api_key oj svc
        = (.ok (.obj [("error",
            .str ("Failed to analyze row: " ++ ("HTTP " ++ toString st)))]), 1)) ∧
    (∀ svc st body, svc p = .resp st body → st < 400 → jsonLoads body = none →
      analyze_row row api_key oj svc
        = (.ok (.obj [("error",
            .str "Error processing the analysis: Expecting value")]), 1)) ∧
    (∀ svc st body bj s, svc p = .resp st body → st < 400 →
      jsonLoads body = some bj → extractContent bj = .ok (.str s) →
      jsonLoads s = none →
      analyze_row row api_key oj svc
        = (.ok (.obj [("error",
            .str "Error processing the analysis: Expecting value")]), 1)) ∧
    (∀ m, pyLookup [("error", Json.str m)] "raw_text" = none) := by
  refine ⟨fun svc m hsvc => ?_, fun svc st body hsvc h400 => ?_,
    fun svc st body hsvc hlt hload => ?_,
    fun svc st body bj s hsvc hlt hload hec hls => ?_, fun m => ?_⟩
  · simp [analyze_row, hp, runTry, hsvc, catchPolicy]
  · simp [analyze_row, hp, runTry, hsvc, h400, catchPolicy]
  · have h400 : ¬ 400 ≤ st := by omega
    simp [analyze_row, hp, runTry, hsvc, h400, hload, catchPolicy]
  · have h400 : ¬ 400 ≤ st := by omega
    simp [analyze_row, hp, runTry, hsvc, h400, hload, hec, hls, catchPolicy]
  · simp [pyLookup]

/-- Constructor test for `Except`, used to check that a computation
succeeds without forcing its (possibly large) payload. -/
def exceptIsOk {e a : Type} : Except e a → Bool
  | .ok _ => true
  | .error _ => false

/-- The concrete prompt `analyze_row` builds for `adRowOld` against
`fetchR1`. -/
def adPromptC3 : String :=
  match analyzePrompt adRowOld fetchR1 with
  | .ok p => p
  | .error _ => ""

/-- Witness for the amended C3: a timed-out service call on the concrete
ad row yields the single-field error value. -/
theorem analyze_failure_paths_return_error_value_witness :
    analyze_row adRowOld "k" fetchR1 (fun _ => .exc "timeout")
      = (.ok (.obj [("error", .str "Failed to analyze row: timeout")]), 1) ∧
    pyLookup [("error", Json.str "Failed to analyze row: timeout")]
      "raw_text" = none := by
  have hprompt : analyzePrompt adRowOld fetchR1 = .ok adPromptC3 := by
    cases he : analyzePrompt adRowOld fetchR1 with
    | error e =>
      have hok : exceptIsOk (analyzePrompt adRowOld fetchR1) = true := by decide
      rw [he] at hok
      exact absurd hok (by simp [exceptIsOk])
    | ok p =>
      simp [adPromptC3, he]
  have h := analyze_failure_paths_return_error_value adRowOld fetchR1 "k"
    adPromptC3 hprompt
  exact ⟨h.1 (fun _ => .exc "timeout") "timeout" rfl,
    h.2.2.2.2 "Failed to analyze row: timeout"⟩

/-- The original organic result item of the C6 scenario. -/
def c6item : Json :=
  .obj [("position", .num 1), ("title", .str "A"), ("link", .str "http://a")]

/-- A raw response with one organic result. -/
def c6oj : PyDict := [("organic_results", .arr [c6item])]

/-- The normalized row `parse_results` produces for `c6item`. -/
def c6row : PyDict :=
  [("Type", .str "Organic"), ("Position", .num 1), ("Title", .str "A"),
   ("Link", .str "http://a"), ("Displayed Link", .null), ("Snippet", .null),
   ("Sitelinks", .str ""), ("Source", .null)]

/-- C6: the `original_data` lookup of `analyze_row` derives its key as
`f"{result_type}s"`, i.e. `"organic" + "s" = "organics"` — but the
response stores organic results under `organic_results` — so for the
organic row derived from `c6item` the scan runs over the empty default
and `original_data` is the empty dict, even though `c6item` is present
under `organic_results` and its position matches the row's (the
`firstMatchPos` conjunct shows the scan would select it).  The prompt
therefore interpolates `\x7b\x7d` as its Original Data fragment instead of
the JSON fragment the record was derived from. -/
theorem original_fragment_lookup_misses :
    parse_results c6oj 5
      = .ok [("ads", []), ("organic", [c6row]), ("shopping_results", []),
             ("immersive_products", [])] ∧
    pyLookup c6oj "organics" = none ∧
    pyLookup c6oj "organic_results" = some (.arr [c6item]) ∧
    firstMatchPos (pyStr ((pyLookup c6row "Position").getD .null)) [c6item]
      = .ok c6item ∧
    findOriginalData c6row c6oj "organic" = .ok (.obj []) ∧
    jsonDumps2 0 (.obj []) = "\x7b\x7d" ∧
    analyzePrompt c6row c6oj
      = .ok (promptText "Organic" "A" "http://a" "1"
          (jsonDumps2 0 (.obj c6row)) "\x7b\x7d") := by
  exact ⟨rfl, rfl, rfl, rfl, rfl, rfl, rfl⟩

/-- An `analyzed_results` entry whose stored analysis carries none of the
nine insight fields: metadata keys present, `Analysis` a string parsing to
a JSON object with no insight key. -/
def entryBlankWf (e : PyDict) : Bool :=
  (pyLookup e "Type").isSome && (pyLookup e "Position").isSome &&
  (pyLookup e "Title").isSome && (pyLookup e "Link").isSome &&
  (match pyLookup e "Analysis" with
   | some (.str s) =>
     (match jsonLoads s with
      | some (.obj fs) => insightKeys.all (fun k => (pyLookup fs k).isNone)
      | _ => false)
   | _ => false)

/-- The report chunk `generate_report` emits for an entry with no stored
insight fields: the entry header followed by all nine insight sections
rendered with the `N/A` placeholder (`analysis.get(key, "N/A")` hit the
default for every key, and the joined keywords list defaulted to
`["N/A"]`). -/
def blankChunkOf (e : PyDict) : String :=
  renderChunk ((pyLookup e "Type").getD .null) ((pyLookup e "Position").getD .null)
    ((pyLookup e "Title").getD .null) ((pyLookup e "Link").getD .null)
    (.str "N/A") (.str "N/A") "N/A" (.str "N/A") (.str "N/A") (.str "N/A")
    (.str "N/A") (.str "N/A") (.str "N/A")

/-- An entry with no stored insight fields renders with every analysis
section at the `N/A` placeholder. -/
theorem entryChunk_blank (e : PyDict) (h : entryBlankWf e = true) :
    entryChunk e = .ok (blankChunkOf e) := by
  unfold entryBlankWf at h
  simp only [Bool.and_eq_true] at h
  obtain ⟨⟨⟨⟨h1, h2⟩, h3⟩, h4⟩, h5⟩ := h
  obtain ⟨ty, hty⟩ := Option.isSome_iff_exists.mp h1
  obtain ⟨pos, hpos⟩ := Option.isSome_iff_exists.mp h2
  obtain ⟨ti, hti⟩ := Option.isSome_iff_exists.mp h3
  obtain ⟨li, hli⟩ := Option.isSome_iff_exists.mp h4
  cases hA : pyLookup e "Analysis" with
  | none => rw [hA] at h5; exact absurd h5 (by simp)
  | some aRaw =>
    rw [hA] at h5
    cases aRaw with
    | str s =>
      cases hloads : jsonLoads s with
      | none => simp only [hloads] at h5; exact absurd h5 (by simp)
      | some aj =>
        simp only [hloads] at h5
        cases aj with
        | obj fs =>
          simp only [List.all_eq_true] at h5
          have k1 : pyLookup fs "seo_analysis" = none :=
            Option.isNone_iff_eq_none.mp (h5 _ (by simp [insightKeys]))
          have k2 : pyLookup fs "content_strategy" = none :=
            Option.isNone_iff_eq_none.mp (h5 _ (by simp [insightKeys]))
          have k3 : pyLookup fs "keywords" = none :=
            Option.isNone_iff_eq_none.mp (h5 _ (by simp [insightKeys]))
          have k4 : pyLookup fs "competitive_positioning" = none :=
            Option.isNone_iff_eq_none.mp (h5 _ (by simp [insightKeys]))
          have k5 : pyLookup fs "improvements" = none :=
            Option.isNone_iff_eq_none.mp (h5 _ (by simp [insightKeys]))
          have k6 : pyLookup fs "usp" = none :=
            Option.isNone_iff_eq_none.mp (h5 _ (by simp [insightKeys]))
          have k7 : pyLookup fs "cta_effectiveness" = none :=
            Option.isNone_iff_eq_none.mp (h5 _ (by simp [insightKeys]))
          have k8 : pyLookup fs "target_audience" = none :=
            Option.isNone_iff_eq_none.mp (h5 _ (by simp [insightKeys]))
          have k9 : pyLookup fs "recommendations" = none :=
            Option.isNone_iff_eq_none.mp (h5 _ (by simp [insightKeys]))
          have d1 : dictIndex e "Type" = .ok ty := by simp [dictIndex, hty]
          have d2 : dictIndex e "Position" = .ok pos := by simp [dictIndex, hpos]
          have d3 : dictIndex e "Title" = .ok ti := by simp [dictIndex, hti]
          have d4 : dictIndex e "Link" = .ok li := by simp [dictIndex, hli]
          have d5 : dictIndex e "Analysis" = .ok (.str s) := by simp [dictIndex, hA]
          have g10 : pyIter (.arr [.str "N/A"]) = .ok [.str "N/A"] := rfl
          have g11 : pyJoinStrs ", " [Json.str "N/A"] = .ok "N/A" := rfl
          simp only [entryChunk, d1, d2, d3, d4, d5, hloads, k1, k2, k3, k4,
            k5, k6, k7, k8, k9, Option.getD, g10, g11, bind, Except.bind,
            blankChunkOf, hty, hpos, hti, hli]
        | null => exact absurd h5 (by simp)
        | bool b => exact absurd h5 (by simp)
        | num n => exact absurd h5 (by simp)
        | str s2 => exact absurd h5 (by simp)
        | arr xs => exact absurd h5 (by simp)
    | null => exact absurd h5 (by simp)
    | bool b => exact absurd h5 (by simp)
    | num n => exact absurd h5 (by simp)
    | arr xs => exact absurd h5 (by simp)
    | obj fs2 => exact absurd h5 (by simp)

/-- Concatenation of a list of report chunks, in order. -/
def concatChunks : List String → String
  | [] => ""
  | c :: rest => c ++ concatChunks rest

/-- Concatenated report body for all-blank entries, by induction on the
entry list. -/
theorem reportBody_blank (entries : List PyDict)
    (h : ∀ e ∈ entries, entryBlankWf e = true) :
    reportBody entries = .ok (concatChunks (entries.map blankChunkOf)) := by
  induction entries with
  | nil => rfl
  | cons e rest ih =>
    have he := h e (by simp)
    have hrest : ∀ x ∈ rest, entryBlankWf x = true :=
      fun x hx => h x (by simp [hx])
    simp only [reportBody, entryChunk_blank e he, ih hrest, bind, Except.bind,
      List.map, concatChunks]

/-- C8: `generate_report` applied to entries none of which carries a
stored insight field (the empty-analysis-cache reading: metadata present,
analysis object empty of the nine insight keys) renders every analysis
field of every record as the `N/A` placeholder — never `None` and never
an empty value — and consists of the header plus one blank chunk per
record. -/
theorem report_blank_when_no_insights (query : String) (entries : List PyDict)
    (h : ∀ e ∈ entries, entryBlankWf e = true) :
    generate_report query entries
      = .ok (reportHeader query ++ concatChunks (entries.map blankChunkOf)) := by
  rw [generate_report, reportBody_blank entries h]
  rfl

/-- Witness for C8: one concrete entry whose stored analysis is the empty
object renders with all nine sections at `N/A`. -/
theorem report_blank_when_no_insights_witness :
    generate_report "elisa kits" [mkEntry "ads" adRowOld (.obj [])]
      = .ok (reportHeader "elisa kits"
          ++ concatChunks ([mkEntry "ads" adRowOld (.obj [])].map blankChunkOf)) := by
  exact report_blank_when_no_insights "elisa kits"
    [mkEntry "ads" adRowOld (.obj [])] (by decide)

/-- C10: `analyze_row`'s success path returns `json.loads` of the message
content with no shape check — any JSON value, object or not, is returned
(and then stored serialized by `process_results`) — and `generate_report`
raises `AttributeError` on an entry whose stored analysis parses to a
non-object value, instead of rendering the report. -/
theorem nonobject_analysis_stored_and_breaks_report :
    (∀ row oj : PyDict, ∀ api_key p body s : String, ∀ svc : SvcOracle,
      ∀ st : Nat, ∀ bj v : Json,
      analyzePrompt row oj = .ok p → svc p = .resp st body → st < 400 →
      jsonLoads body = some bj → extractContent bj = .ok (.str s) →
      jsonLoads s = some v →
      analyze_row row api_key oj svc = (.ok v, 1)) ∧
    (∀ rt : String, ∀ row : PyDict, ∀ v : Json,
      pyLookup (mkEntry rt row v) "Analysis" = some (.str (jsonDumps v))) ∧
    (∀ query : String, ∀ e : PyDict, ∀ ty pos ti li : Json, ∀ aS : String,
      ∀ v : Json,
      pyLookup e "Type" = some ty → pyLookup e "Position" = some pos →
      pyLookup e "Title" = some ti → pyLookup e "Link" = some li →
      pyLookup e "Analysis" = some (.str aS) → jsonLoads aS = some v →
      (∀ fs, v ≠ .obj fs) →
      generate_report query [e] = .error (.attributeError "get")) := by
  refine ⟨?_, ?_, ?_⟩
  · intro row oj api_key p body s svc st bj v hp hsvc hlt hload hec hls
    have h400 : ¬ 400 ≤ st := by omega
    simp [analyze_row, hp, runTry, hsvc, h400, hload, hec, hls, catchPolicy]
  · intro rt row v
    rfl
  · intro query e ty pos ti li aS v hty hpos hti hli hA hload hnobj
    have d1 : dictIndex e "Type" = .ok ty := by simp [dictIndex, hty]
    have d2 : dictIndex e "Position" = .ok pos := by simp [dictIndex, hpos]
    have d3 : dictIndex e "Title" = .ok ti := by simp [dictIndex, hti]
    have d4 : dictIndex e "Link" = .ok li := by simp [dictIndex, hli]
    have d5 : dictIndex e "Analysis" = .ok (.str aS) := by simp [dictIndex, hA]
    have hchunk : entryChunk e = .error (.attributeError "get") := by
      cases v with
      | obj fs => exact absurd rfl (hnobj fs)
      | null =>
        simp only [entryChunk, d1, d2, d3, d4, d5, hload, bind, Except.bind]
      | bool b =>
        simp only [entryChunk, d1, d2, d3, d4, d5, hload, bind, Except.bind]
      | num n =>
        simp only [entryChunk, d1, d2, d3, d4, d5, hload, bind, Except.bind]
      | str s =>
        simp only [entryChunk, d1, d2, d3, d4, d5, hload, bind, Except.bind]
      | arr xs =>
        simp only [entryChunk, d1, d2, d3, d4, d5, hload, bind, Except.bind]
    simp only [generate_report, reportBody, hchunk, bind, Except.bind]

/-- The concrete chat response whose message content is the JSON list
`[1, 2]`. -/
def svcListContent : SvcOracle := fun _ =>
  .resp 200 (jsonDumps (.obj [("choices", .arr [.obj [("message",
    .obj [("content", .str "[1, 2]")])]])]))

/-- Witness for C10: the service returns the JSON list `[1, 2]`;
`analyze_row` returns it as the analysis value, `process_results` stores
it serialized, and `generate_report` on the stored entry raises
`AttributeError`. -/
theorem nonobject_analysis_stored_and_breaks_report_witness :
    analyze_row adRowOld "k" fetchR1 svcListContent
      = (.ok (.arr [.num 1, .num 2]), 1) ∧
    pyLookup (mkEntry "ads" adRowOld (.arr [.num 1, .num 2])) "Analysis"
      = some (.str "[1, 2]") ∧
    generate_report "elisa kits" [mkEntry "ads" adRowOld (.arr [.num 1, .num 2])]
      = .error (.attributeError "get") := by
  have hprompt : analyzePrompt adRowOld fetchR1 = .ok adPromptC3 := by
    cases he : analyzePrompt adRowOld fetchR1 with
    | error e =>
      have hok : exceptIsOk (analyzePrompt adRowOld fetchR1) = true := by decide
      rw [he] at hok
      exact absurd hok (by simp [exceptIsOk])
    | ok p =>
      simp [adPromptC3, he]
  refine ⟨?_, ?_, ?_⟩
  · exact nonobject_analysis_stored_and_breaks_report.1 adRowOld fetchR1 "k"
      adPromptC3 _ "[1, 2]" svcListContent 200
      (.obj [("choices", .arr [.obj [("message",
        .obj [("content", .str "[1, 2]")])]])])
      (.arr [.num 1, .num 2]) hprompt rfl (by omega) (by decide) (by decide)
      (by decide)
  · have h := nonobject_analysis_stored_and_breaks_report.2.1 "ads" adRowOld
      (.arr [.num 1, .num 2])
    have hd : jsonDumps (.arr [.num 1, .num 2]) = "[1, 2]" := by decide
    rw [h, hd]
  · exact nonobject_analysis_stored_and_breaks_report.2.2 "elisa kits"
      (mkEntry "ads" adRowOld (.arr [.num 1, .num 2]))
      (.str "ads") (.num 1) (.str "Old Ad") (.str "http://old") "[1, 2]"
      (.arr [.num 1, .num 2]) (by decide) (by decide) (by decide) (by decide)
      (by decide) (by decide) (by intro fs h; exact Json.noConfusion h)
